import Mathlib

/-!
Verification of the erasure-coded bucket operations
(cmd/erasure-bucket.go): MakeBucketWithLocation, getBucketInfo,
DeleteBucket, undoDeleteBucket, and the ignorable-error sets.

The per-disk storage interface (MakeVol, StatVol, DeleteVol, RenameFile),
the quorum reducers and the quorum policy live outside the extracted
slice; those are modelled from the specification where noted.  Everything
else is a direct translation of the Go source: concurrency in the fan-out
is modelled by a pure map over the disk list (every slot's closure is a
pure function of that slot, and the reduction only runs on the complete
result vector, exactly as the errgroup Wait guarantees).
-/

namespace ErasureBucket

/-- Storage-level error kinds exchanged between a disk and the bucket
workflows.  `other tag` stands for any further backend error (timeouts,
I–O failures, ...) that none of the workflows treats specially. -/
inductive StorageErr where
  | diskNotFound
  | faultyDisk
  | diskAccessDenied
  | unformattedDisk
  | volumeNotFound
  | volumeNotEmpty
  | volumeExists
  | erasureWriteQuorum
  | erasureReadQuorum
  | other (tag : Nat)
deriving DecidableEq, Repr

def errDiskNotFound : StorageErr := .diskNotFound
def errFaultyDisk : StorageErr := .faultyDisk
def errDiskAccessDenied : StorageErr := .diskAccessDenied
def errUnformattedDisk : StorageErr := .unformattedDisk
def errVolumeNotFound : StorageErr := .volumeNotFound
def errVolumeNotEmpty : StorageErr := .volumeNotEmpty
def errVolumeExists : StorageErr := .volumeExists
def errErasureWriteQuorum : StorageErr := .erasureWriteQuorum
def errErasureReadQuorum : StorageErr := .erasureReadQuorum

/-- Modelled from the spec: the base ignorable-error set (missing from the
extracted slice) holds the backend-unavailable kinds, which "must not count
against quorum even though they indicate a non-success outcome". -/
def baseIgnoredErrs : List StorageErr := [errDiskNotFound, errFaultyDisk]

/-- Source line 30: errors that can be ignored in a bucket operation. -/
def bucketOpIgnoredErrs : List StorageErr :=
  baseIgnoredErrs ++ [errDiskAccessDenied, errUnformattedDisk]

/-- Source line 33: errors that can be ignored in a bucket metadata
operation. -/
def bucketMetadataOpIgnoredErrs : List StorageErr :=
  bucketOpIgnoredErrs ++ [errVolumeNotFound]

/-- Volume information returned by StatVol. -/
structure VolInfo where
  name : String
  created : Nat
deriving DecidableEq, Repr, Inhabited

/-- Bucket information; `BucketInfo(volInfo)` in the source is a plain
field-for-field conversion. -/
structure BucketInfo where
  name : String
  created : Nat
deriving DecidableEq, Repr, Inhabited

def BucketInfo.ofVolInfo (v : VolInfo) : BucketInfo := ⟨v.name, v.created⟩

/-- Domain-level (object layer) errors. -/
inductive ObjErr where
  | bucketNotFound (bucket : String)
  | bucketNotEmpty (bucket : String)
  | bucketExists (bucket : String)
  | bucketNameInvalid (bucket : String)
  | insufficientWriteQuorum
  | insufficientReadQuorum
  | storage (e : StorageErr)
deriving DecidableEq, Repr

/-- Modelled from the spec: toObjectErr (missing from the extracted slice)
translates storage errors "at the workflow boundary from quorum sentinels
into domain-level outcomes". -/
def toObjectErr (e : Option StorageErr) (bucket : String) : Option ObjErr :=
  match e with
  | none => none
  | some .volumeNotFound => some (.bucketNotFound bucket)
  | some .volumeNotEmpty => some (.bucketNotEmpty bucket)
  | some .volumeExists => some (.bucketExists bucket)
  | some .erasureWriteQuorum => some .insufficientWriteQuorum
  | some .erasureReadQuorum => some .insufficientReadQuorum
  | some e => some (.storage e)

/-- One live disk, described by the responses its storage interface gives
to the calls the bucket workflows make for the bucket at hand.  DeleteVol
additionally receives the force flag. -/
structure Disk where
  makeVol : Option StorageErr
  statVol : Except StorageErr VolInfo
  deleteVol : Bool → Option StorageErr
  renameFile : Option StorageErr

/-- The Backend Handle Set: an ordered list of slots, each either a live
disk or absent (nil in the source). -/
abbrev DiskSet := List (Option Disk)

/-- Modelled from the spec: quorum policy black box (missing from the
extracted slice); matches the spec scenario N = 4, write quorum 3. -/
def getWriteQuorum (n : Nat) : Nat := n / 2 + 1

/-- Modelled from the spec: read-quorum policy black box (missing from the
extracted slice). -/
def getReadQuorum (n : Nat) : Nat := n / 2

/-- Number of successful (nil-error) slots in a result vector. -/
def countSuccess (errs : List (Option StorageErr)) : Nat :=
  errs.countP (fun e => e.isNone)

/-- The non-nil, non-ignored errors of a result vector, in slot order. -/
def realErrs (errs : List (Option StorageErr)) (ignoredErrs : List StorageErr) :
    List StorageErr :=
  (errs.filterMap id).filter (fun e => decide (e ∉ ignoredErrs))

/-- Modelled from the spec: the dominant error is "the error kind that
appears on the largest number of non-ignored, non-nil slots; ties are
broken by the Reducer's fixed scan order (lowest slot index first)". -/
def dominantErr (real : List StorageErr) : Option (StorageErr × Nat) :=
  real.foldl
    (fun acc e =>
      match acc with
      | none => some (e, real.count e)
      | some (b, bc) =>
          if bc < real.count e then some (e, real.count e) else some (b, bc))
    none

/-- Modelled from the spec: quorum reduction (missing from the extracted
slice).  "Count slots with nil error; if that count reaches Q the outcome
is success.  If the success count is below Q, find the dominant real-error
kind; if the count of slots sharing that kind reaches Q, return that
specific error; otherwise return a generic quorum-failure sentinel." -/
def reduceQuorumErrs (errs : List (Option StorageErr))
    (ignoredErrs : List StorageErr) (quorum : Nat) (quorumErr : StorageErr) :
    Option StorageErr :=
  if quorum ≤ countSuccess errs then none
  else
    match dominantErr (realErrs errs ignoredErrs) with
    | none => some quorumErr
    | some (e, c) => if quorum ≤ c then some e else some quorumErr

/-- Write-quorum reduction, with the write-quorum-loss sentinel. -/
def reduceWriteQuorumErrs (errs : List (Option StorageErr))
    (ignoredErrs : List StorageErr) (writeQuorum : Nat) : Option StorageErr :=
  reduceQuorumErrs errs ignoredErrs writeQuorum errErasureWriteQuorum

/-- Read-quorum reduction, with the read-quorum-loss sentinel. -/
def reduceReadQuorumErrs (errs : List (Option StorageErr))
    (ignoredErrs : List StorageErr) (readQuorum : Nat) : Option StorageErr :=
  reduceQuorumErrs errs ignoredErrs readQuorum errErasureReadQuorum

/-- Fan-out of MakeVol (source lines 51-65): an absent slot short-circuits
to errDiskNotFound; a live slot returns its MakeVol result. -/
def makeErrsOf (disks : DiskSet) : List (Option StorageErr) :=
  disks.map fun d =>
    match d with
    | none => some errDiskNotFound
    | some d => d.makeVol

/-- Fan-out of StatVol (source lines 97-110), error component. -/
def statErrsOf (disks : DiskSet) : List (Option StorageErr) :=
  disks.map fun d =>
    match d with
    | none => some errDiskNotFound
    | some d =>
        match d.statVol with
        | .error e => some e
        | .ok _ => none

/-- Fan-out of StatVol, value component: the bucketsInfo array, zero-valued
except at the slots whose StatVol succeeded. -/
def bucketsInfoOf (disks : DiskSet) : List BucketInfo :=
  disks.map fun d =>
    match d with
    | none => default
    | some d =>
        match d.statVol with
        | .ok v => BucketInfo.ofVolInfo v
        | .error _ => default

/-- Fan-out of DeleteVol (source lines 146-154); the force flag is passed
through to every live slot. -/
def deleteErrsOf (force : Bool) (disks : DiskSet) : List (Option StorageErr) :=
  disks.map fun d =>
    match d with
    | none => some errDiskNotFound
    | some d => d.deleteVol force

/-- Indices of the live slots, in order. -/
def liveIndices (disks : DiskSet) : List Nat :=
  (List.range disks.length).filter (fun i => (disks.getD i none).isSome)

/-- Result of one MakeBucketWithLocation call: the returned error and the
slots on which MakeVol was actually invoked. -/
structure MakeBucketTrace where
  result : Option ObjErr
  invoked : List Nat
deriving DecidableEq, Repr

/-- MakeBucketWithLocation (source lines 38-70), with the write quorum as
an explicit parameter.  The external name validator's verdict is passed in
as `validName` (bucket name validation rules are an external collaborator
in the spec). -/
def makeBucketWithLocationW (wq : Nat) (validName : Bool) (bucket : String)
    (disks : DiskSet) : MakeBucketTrace :=
  if validName = false then
    { result := some (.bucketNameInvalid bucket), invoked := [] }
  else
    { result :=
        toObjectErr (reduceWriteQuorumErrs (makeErrsOf disks) bucketOpIgnoredErrs wq)
          bucket,
      invoked := liveIndices disks }

/-- MakeBucketWithLocation with the quorum computed by the quorum policy,
as in source line 67. -/
def MakeBucketWithLocation (validName : Bool) (bucket : String)
    (disks : DiskSet) : MakeBucketTrace :=
  makeBucketWithLocationW (getWriteQuorum disks.length) validName bucket disks

/-- undoDeleteBucket (source lines 72-88): re-issue MakeVol on every live
slot, skipping absent ones; the first component lists the slots on which
MakeVol was invoked, the second is the errgroup error vector after Wait —
every invoked closure discards the MakeVol result and returns nil, and a
skipped slot's entry stays nil. -/
def undoDeleteBucket (disks : DiskSet) : List Nat × List (Option StorageErr) :=
  ((List.range disks.length).filter (fun i => (disks.getD i none).isSome),
   disks.map fun d =>
     match d with
     | none => none
     | some d =>
         match d.makeVol with
         | _ => none)

/-- The index of the first element satisfying p, the way a Go for-range
loop with an early return finds it. -/
def firstIdxP (p : α → Bool) : List α → Option Nat
  | [] => none
  | a :: t => if p a then some 0 else (firstIdxP p t).map (· + 1)

/-- getBucketInfo (source lines 91-126), with the read quorum as an
explicit parameter.  Returns the Go-style pair (info, error). -/
def getBucketInfoW (rq : Nat) (disks : DiskSet) :
    BucketInfo × Option StorageErr :=
  let errs := statErrsOf disks
  match firstIdxP (fun e => e.isNone) errs with
  | some i => ((bucketsInfoOf disks).getD i default, none)
  | none => (default, reduceReadQuorumErrs errs [] rq)

/-- getBucketInfo with the quorum computed by the quorum policy, as in
source line 124. -/
def getBucketInfo (disks : DiskSet) : BucketInfo × Option StorageErr :=
  getBucketInfoW (getReadQuorum disks.length) disks

/-- GetBucketInfo (source lines 129-135): domain translation of the
getBucketInfo error. -/
def GetBucketInfo (bucket : String) (disks : DiskSet) :
    BucketInfo × Option ObjErr :=
  let r := getBucketInfo disks
  match r.2 with
  | some e => (default, toObjectErr (some e) bucket)
  | none => (r.1, none)

/-- DeleteBucketOptions: the force and noRecreate flags. -/
structure DeleteBucketOptions where
  force : Bool
  noRecreate : Bool
deriving DecidableEq, Repr

/-- The first non-nil error of a result vector (the Go for-range loop in
force mode, source lines 160-165). -/
def firstSomeErr : List (Option StorageErr) → Option StorageErr
  | [] => none
  | none :: t => firstSomeErr t
  | some e :: _ => some e

/-- The quarantine relocates issued by the dangling-bucket loop (source
lines 180-185): one RenameFile per slot whose raw delete error is
errVolumeNotEmpty and whose disk is live; each entry records the slot
index and the RenameFile result (which the source discards). -/
def quarantineCallsAux (i : Nat) :
    DiskSet → List (Option StorageErr) → List (Nat × Option StorageErr)
  | d :: ds, e :: es =>
      if e = some errVolumeNotEmpty ∧ d.isSome then
        (i, d.elim none Disk.renameFile) :: quarantineCallsAux (i + 1) ds es
      else
        quarantineCallsAux (i + 1) ds es
  | _, _ => []

def quarantineCalls (disks : DiskSet) (dErrs : List (Option StorageErr)) :
    List (Nat × Option StorageErr) :=
  quarantineCallsAux 0 disks dErrs

/-- Result of one DeleteBucket call: the returned error, how many times
undoDeleteBucket was invoked, and the quarantine relocates issued. -/
structure DeleteBucketTrace where
  result : Option ObjErr
  undoInvoked : Nat
  relocated : List (Nat × Option StorageErr)
deriving DecidableEq, Repr

/-- DeleteBucket (source lines 138-194), with the write quorum as an
explicit parameter.  Force mode: the first non-nil slot error triggers
undoDeleteBucket and is propagated through toObjectErr.  Quorum mode:
write-quorum reduction over bucketOpIgnoredErrs; a write-quorum-loss
outcome triggers undoDeleteBucket unless noRecreate; a nil or
volume-not-found outcome enables the dangling-bucket quarantine loop, and
if that loop issued at least one relocate the outcome becomes nil. -/
def deleteBucketW (wq : Nat) (bucket : String) (opts : DeleteBucketOptions)
    (disks : DiskSet) : DeleteBucketTrace :=
  let dErrs := deleteErrsOf opts.force disks
  if opts.force then
    match firstSomeErr dErrs with
    | some e => { result := toObjectErr (some e) bucket, undoInvoked := 1, relocated := [] }
    | none => { result := none, undoInvoked := 0, relocated := [] }
  else
    let err := reduceWriteQuorumErrs dErrs bucketOpIgnoredErrs wq
    let undo : Nat :=
      if err = some errErasureWriteQuorum ∧ opts.noRecreate = false then 1 else 0
    if err = none ∨ err = some errVolumeNotFound then
      let relocated := quarantineCalls disks dErrs
      let errFinal := if relocated.isEmpty then err else none
      { result := toObjectErr errFinal bucket, undoInvoked := undo,
        relocated := relocated }
    else
      { result := toObjectErr err bucket, undoInvoked := undo, relocated := [] }

/-- DeleteBucket with the quorum computed by the quorum policy, as in
source line 170. -/
def DeleteBucket (bucket : String) (opts : DeleteBucketOptions)
    (disks : DiskSet) : DeleteBucketTrace :=
  deleteBucketW (getWriteQuorum disks.length) bucket opts disks

/-! Helper lemmas. -/

theorem getD_of_getElem? {α : Type _} {l : List α} {i : Nat} {x : α} (d : α)
    (h : l[i]? = some x) : l.getD i d = x := by
  induction l generalizing i with
  | nil => simp at h
  | cons a t ih =>
    cases i with
    | zero =>
      simp only [List.getElem?_cons_zero, Option.some.injEq] at h
      simp [List.getD, h]
    | succ j =>
      simp only [List.getElem?_cons_succ] at h
      simpa [List.getD] using ih h

theorem firstIdxP_eq_some {α : Type _} (p : α → Bool) (l : List α) (i : Nat) (x : α)
    (hx : l[i]? = some x) (hp : p x = true)
    (hfirst : ∀ j, j < i → ∀ y, l[j]? = some y → p y = false) :
    firstIdxP p l = some i := by
  induction l generalizing i with
  | nil => simp at hx
  | cons a t ih =>
    cases i with
    | zero =>
      simp only [List.getElem?_cons_zero, Option.some.injEq] at hx
      subst hx
      simp [firstIdxP, hp]
    | succ j =>
      have ha : p a = false := hfirst 0 (Nat.succ_pos _) a (by simp)
      simp only [List.getElem?_cons_succ] at hx
      have ht := ih j hx
        (fun k hk y hy => hfirst (k + 1) (by omega) y (by simpa using hy))
      simp [firstIdxP, ha, ht]

theorem firstSomeErr_eq_none (l : List (Option StorageErr))
    (h : ∀ x ∈ l, x = none) : firstSomeErr l = none := by
  induction l with
  | nil => rfl
  | cons a t ih =>
    have ha := h a (by simp)
    subst ha
    exact ih (fun x hx => h x (by simp [hx]))

theorem firstSomeErr_eq_some (l : List (Option StorageErr)) (i : Nat) (e : StorageErr)
    (hx : l[i]? = some (some e)) (hfirst : ∀ j, j < i → l[j]? = some none) :
    firstSomeErr l = some e := by
  induction l generalizing i with
  | nil => simp at hx
  | cons a t ih =>
    cases i with
    | zero =>
      simp only [List.getElem?_cons_zero, Option.some.injEq] at hx
      subst hx
      rfl
    | succ j =>
      have ha : a = none := by
        have := hfirst 0 (Nat.succ_pos _)
        simpa using this
      subst ha
      simp only [List.getElem?_cons_succ] at hx
      exact ih j hx (fun k hk => by simpa using hfirst (k + 1) (by omega))

theorem quarantineCallsAux_nil (i : Nat) (ds : DiskSet) (es : List (Option StorageErr))
    (h : ∀ e ∈ es, e ≠ some errVolumeNotEmpty) :
    quarantineCallsAux i ds es = [] := by
  induction ds generalizing i es with
  | nil => cases es <;> rfl
  | cons d ds ih =>
    cases es with
    | nil => rfl
    | cons e es =>
      have he : e ≠ some errVolumeNotEmpty := h e (by simp)
      rw [quarantineCallsAux, if_neg (by simp [he])]
      exact ih (i + 1) es (fun x hx => h x (by simp [hx]))

theorem quarantineCallsAux_length (i : Nat) (ds : DiskSet) (es : List (Option StorageErr))
    (hlen : ds.length = es.length) (hlive : ∀ d ∈ ds, d.isSome) :
    (quarantineCallsAux i ds es).length = es.count (some errVolumeNotEmpty) := by
  induction ds generalizing i es with
  | nil =>
    have hes : es = [] := by
      cases es with
      | nil => rfl
      | cons e es => simp at hlen
    subst hes
    rfl
  | cons d ds ih =>
    cases es with
    | nil => simp at hlen
    | cons e es =>
      have hd : d.isSome := hlive d (by simp)
      have hlen : ds.length = es.length := by simpa using hlen
      have htail := ih (i + 1) es hlen (fun x hx => hlive x (by simp [hx]))
      by_cases he : e = some errVolumeNotEmpty
      · subst he
        rw [quarantineCallsAux, if_pos ⟨rfl, hd⟩]
        simp [List.count_cons, htail]
      · rw [quarantineCallsAux, if_neg (by simp [he])]
        rw [htail]
        simp [List.count_cons, Ne.symm he]

theorem quarantineCallsAux_mem (k j : Nat) (ds : DiskSet) (es : List (Option StorageErr))
    (d : Disk) (hd : ds[j]? = some (some d))
    (he : es[j]? = some (some errVolumeNotEmpty)) :
    (k + j, d.renameFile) ∈ quarantineCallsAux k ds es := by
  induction ds generalizing k j es with
  | nil => simp at hd
  | cons x ds ih =>
    cases es with
    | nil => simp at he
    | cons e es =>
      cases j with
      | zero =>
        simp only [List.getElem?_cons_zero, Option.some.injEq] at hd he
        subst hd; subst he
        rw [quarantineCallsAux, if_pos ⟨rfl, rfl⟩]
        simp [Option.elim]
      | succ j =>
        simp only [List.getElem?_cons_succ] at hd he
        have hmem := ih (k + 1) j es hd he
        have harith : k + (j + 1) = (k + 1) + j := by omega
        rw [harith, quarantineCallsAux]
        split
        · exact List.mem_cons_of_mem _ hmem
        · exact hmem

theorem realErrs_cons_none (t : List (Option StorageErr)) (ig : List StorageErr) :
    realErrs (none :: t) ig = realErrs t ig := by
  simp [realErrs]

theorem realErrs_cons_some (e : StorageErr) (t : List (Option StorageErr))
    (ig : List StorageErr) :
    realErrs (some e :: t) ig =
      if e ∈ ig then realErrs t ig else e :: realErrs t ig := by
  by_cases he : e ∈ ig
  · simp [realErrs, he]
  · simp [realErrs, he]

theorem realErrs_all_vnf (errs : List (Option StorageErr))
    (h : ∀ e ∈ errs, e = some errVolumeNotFound) :
    realErrs errs bucketOpIgnoredErrs =
      List.replicate errs.length errVolumeNotFound := by
  induction errs with
  | nil => rfl
  | cons e t ih =>
    have he := h e (by simp)
    subst he
    rw [realErrs_cons_some, if_neg (by decide)]
    rw [ih (fun x hx => h x (by simp [hx]))]
    simp [List.replicate_succ]

theorem realErrs_all_vnf_meta (errs : List (Option StorageErr))
    (h : ∀ e ∈ errs, e = some errVolumeNotFound) :
    realErrs errs bucketMetadataOpIgnoredErrs = [] := by
  induction errs with
  | nil => rfl
  | cons e t ih =>
    have he := h e (by simp)
    subst he
    rw [realErrs_cons_some, if_pos (by decide)]
    exact ih (fun x hx => h x (by simp [hx]))

theorem countSuccess_eq_zero (errs : List (Option StorageErr))
    (h : ∀ e ∈ errs, e ≠ none) : countSuccess errs = 0 := by
  rw [countSuccess, List.countP_eq_zero]
  intro a ha
  have := h a ha
  cases a with
  | none => exact absurd rfl this
  | some x => simp

theorem foldl_fix {α β : Type _} (f : β → α → β) (b : β) (a : α) (h : f b a = b)
    (m : Nat) : List.foldl f b (List.replicate m a) = b := by
  induction m with
  | zero => rfl
  | succ m ih => rw [List.replicate_succ, List.foldl_cons, h, ih]

theorem foldl_uniform (cnt : StorageErr → Nat) (a : StorageErr) (m : Nat) :
    List.foldl
      (fun (acc : Option (StorageErr × Nat)) (e : StorageErr) =>
        match acc with
        | none => some (e, cnt e)
        | some (b, bc) => if bc < cnt e then some (e, cnt e) else some (b, bc))
      none (a :: List.replicate m a) = some (a, cnt a) := by
  rw [List.foldl_cons]
  show List.foldl _ (some (a, cnt a)) (List.replicate m a) = some (a, cnt a)
  exact foldl_fix _ _ a (by simp) m

theorem dominantErr_replicate (m : Nat) (a : StorageErr) :
    dominantErr (List.replicate (m + 1) a) = some (a, m + 1) := by
  have hc : (List.replicate (m + 1) a).count a = m + 1 := by
    simp [List.count_replicate]
  rw [dominantErr]
  exact (foldl_uniform (fun e => (List.replicate (m + 1) a).count e) a m).trans
    (by rw [hc])

theorem reduceWrite_all_vnf (errs : List (Option StorageErr)) (q : Nat)
    (hq : 0 < q) (hlen : q ≤ errs.length)
    (h : ∀ e ∈ errs, e = some errVolumeNotFound) :
    reduceWriteQuorumErrs errs bucketOpIgnoredErrs q = some errVolumeNotFound ∧
    reduceWriteQuorumErrs errs bucketMetadataOpIgnoredErrs q =
      some errErasureWriteQuorum := by
  have hzero : countSuccess errs = 0 :=
    countSuccess_eq_zero errs (fun e he => by simp [h e he])
  have hnotq : ¬q ≤ countSuccess errs := by omega
  obtain ⟨m, hm⟩ : ∃ m, errs.length = m + 1 := ⟨errs.length - 1, by omega⟩
  constructor
  · rw [reduceWriteQuorumErrs, reduceQuorumErrs, if_neg hnotq,
      realErrs_all_vnf errs h, hm, dominantErr_replicate]
    show (if q ≤ m + 1 then some errVolumeNotFound else some errErasureWriteQuorum) =
      some errVolumeNotFound
    rw [if_pos (by omega)]
  · rw [reduceWriteQuorumErrs, reduceQuorumErrs, if_neg hnotq,
      realErrs_all_vnf_meta errs h]
    rfl

/-- Unfolding of deleteBucketW in quorum mode (opts.force = false). -/
theorem deleteBucketW_quorum (wq : Nat) (bucket : String) (nr : Bool)
    (disks : DiskSet) :
    deleteBucketW wq bucket ⟨false, nr⟩ disks =
      (let dErrs := deleteErrsOf false disks
       let err := reduceWriteQuorumErrs dErrs bucketOpIgnoredErrs wq
       let undo : Nat :=
         if err = some errErasureWriteQuorum ∧ nr = false then 1 else 0
       if err = none ∨ err = some errVolumeNotFound then
         let relocated := quarantineCalls disks dErrs
         let errFinal := if relocated.isEmpty then err else none
         { result := toObjectErr errFinal bucket, undoInvoked := undo,
           relocated := relocated }
       else
         { result := toObjectErr err bucket, undoInvoked := undo,
           relocated := [] }) := rfl

/-- Unfolding of deleteBucketW in force mode (opts.force = true). -/
theorem deleteBucketW_force (wq : Nat) (bucket : String) (nr : Bool)
    (disks : DiskSet) :
    deleteBucketW wq bucket ⟨true, nr⟩ disks =
      (match firstSomeErr (deleteErrsOf true disks) with
       | some e =>
           { result := toObjectErr (some e) bucket, undoInvoked := 1,
             relocated := [] }
       | none =>
           { result := none, undoInvoked := 0, relocated := [] }) := rfl

/-- A trace projection: undoInvoked in quorum mode is 1 when the reduction
is the write-quorum-loss sentinel and noRecreate is false, else 0. -/
theorem deleteBucketW_quorum_undoInvoked (wq : Nat) (bucket : String) (nr : Bool)
    (disks : DiskSet) :
    (deleteBucketW wq bucket ⟨false, nr⟩ disks).undoInvoked =
      if reduceWriteQuorumErrs (deleteErrsOf false disks) bucketOpIgnoredErrs wq =
          some errErasureWriteQuorum ∧ nr = false then 1 else 0 := by
  simp only [deleteBucketW_quorum]
  split <;> rfl

/-! Concrete disks used by the witnesses and counterexamples. -/

/-- A live disk whose DeleteVol reports volume-not-empty and whose
quarantine RenameFile itself fails. -/
def neDisk : Disk :=
  { makeVol := none, statVol := .ok ⟨"", 0⟩,
    deleteVol := fun _ => some errVolumeNotEmpty,
    renameFile := some errFaultyDisk }

/-- A live disk whose DeleteVol reports volume-not-found. -/
def nfDisk : Disk :=
  { makeVol := none, statVol := .ok ⟨"", 0⟩,
    deleteVol := fun _ => some errVolumeNotFound, renameFile := none }

/-- A live disk whose DeleteVol succeeds. -/
def okDelDisk : Disk :=
  { makeVol := none, statVol := .ok ⟨"", 0⟩,
    deleteVol := fun _ => none, renameFile := none }

/-- A live disk whose DeleteVol reports the given error. -/
def errDelDisk (e : StorageErr) : Disk :=
  { makeVol := none, statVol := .ok ⟨"", 0⟩,
    deleteVol := fun _ => some e, renameFile := none }

/-- A live disk whose StatVol succeeds with the given volume info. -/
def statOkDisk (v : VolInfo) : Disk :=
  { makeVol := none, statVol := .ok v, deleteVol := fun _ => none,
    renameFile := none }

/-- A live disk whose StatVol fails with the given error. -/
def statErrDisk (e : StorageErr) : Disk :=
  { makeVol := none, statVol := .error e, deleteVol := fun _ => none,
    renameFile := none }

/-! The claims. -/

/-- C3: in a quorum-mode DeleteBucket (force = false) the compensating
rollback undoDeleteBucket is invoked exactly once if and only if the
write-quorum reduction of the per-slot delete errors yields the
write-quorum-loss sentinel and noRecreate is false; it is never invoked
for any other reduction outcome or when noRecreate is true. -/
theorem deleteBucket_rollback_iff (wq : Nat) (bucket : String) (nr : Bool)
    (disks : DiskSet) :
    (deleteBucketW wq bucket ⟨false, nr⟩ disks).undoInvoked ≤ 1 ∧
    ((deleteBucketW wq bucket ⟨false, nr⟩ disks).undoInvoked = 1 ↔
      (reduceWriteQuorumErrs (deleteErrsOf false disks) bucketOpIgnoredErrs wq =
          some errErasureWriteQuorum ∧ nr = false)) := by
  rw [deleteBucketW_quorum_undoInvoked]
  by_cases hc :
      reduceWriteQuorumErrs (deleteErrsOf false disks) bucketOpIgnoredErrs wq =
        some errErasureWriteQuorum ∧ nr = false
  · simp [hc]
  · simp [hc]

/-- C4: in force mode, if every slot's delete succeeded DeleteBucket
returns success with no rollback; if some slot failed, the first failing
slot's error is propagated through toObjectErr and undoDeleteBucket is
invoked once, regardless of how many other slots succeeded. -/
theorem deleteBucket_force_mode (wq : Nat) (bucket : String) (nr : Bool)
    (disks : DiskSet) :
    ((∀ e ∈ deleteErrsOf true disks, e = none) →
      deleteBucketW wq bucket ⟨true, nr⟩ disks =
        { result := none, undoInvoked := 0, relocated := [] }) ∧
    (∀ (i : Nat) (e : StorageErr), (deleteErrsOf true disks)[i]? = some (some e) →
      (∀ j, j < i → (deleteErrsOf true disks)[j]? = some none) →
      deleteBucketW wq bucket ⟨true, nr⟩ disks =
        { result := toObjectErr (some e) bucket, undoInvoked := 1,
          relocated := [] }) := by
  constructor
  · intro h
    rw [deleteBucketW_force, firstSomeErr_eq_none _ h]
  · intro i e hx hfirst
    rw [deleteBucketW_force, firstSomeErr_eq_some _ i e hx hfirst]

def forceDisks : DiskSet := [some okDelDisk, some (errDelDisk errFaultyDisk)]

/-- Witness for C4: two disks, one failing slot; the single error is
propagated and the rollback runs. -/
theorem deleteBucket_force_mode_witness :
    deleteBucketW 2 "b" ⟨true, false⟩ forceDisks =
      { result := toObjectErr (some errFaultyDisk) "b", undoInvoked := 1,
        relocated := [] } :=
  (deleteBucket_force_mode 2 "b" false forceDisks).2 1 errFaultyDisk (by decide)
    (fun j hj => by
      have h0 : j = 0 := by omega
      subst h0
      decide)

/-- C7: undoDeleteBucket re-issues the recreate on every live slot and
skips absent slots; every per-slot error is discarded (the errgroup vector
it waits on is all-nil), and the full vector — one entry per slot — is
collected before it returns. -/
theorem undoDeleteBucket_contract (disks : DiskSet) :
    (undoDeleteBucket disks).2.length = disks.length ∧
    (∀ e ∈ (undoDeleteBucket disks).2, e = none) ∧
    (∀ i, i ∈ (undoDeleteBucket disks).1 ↔
      i < disks.length ∧ (disks.getD i none).isSome) := by
  refine ⟨by simp [undoDeleteBucket], ?_, ?_⟩
  · intro e he
    simp only [undoDeleteBucket] at he
    rw [List.mem_map] at he
    obtain ⟨d, _, hd⟩ := he
    cases d with
    | none => exact hd.symm
    | some dd => exact hd.symm
  · intro i
    simp [undoDeleteBucket, List.mem_filter, List.mem_range]

def undoDisks : DiskSet := [none, some okDelDisk]

/-- Witness for C7: with one absent and one live slot, the live slot is
recreated, and the collected error vector is nil. -/
theorem undoDeleteBucket_contract_witness :
    1 ∈ (undoDeleteBucket undoDisks).1 ∧
    (undoDeleteBucket undoDisks).2.getD 0 (some errFaultyDisk) = none :=
  ⟨((undoDeleteBucket_contract undoDisks).2.2 1).mpr (by decide),
   (undoDeleteBucket_contract undoDisks).2.1 _ (by decide)⟩

/-- C8: every fan-out (MakeVol, StatVol, DeleteVol) produces exactly one
result per slot, and an absent slot short-circuits to the fixed
disk-not-found error in its slot of the vector. -/
theorem fanout_absent_slot (disks : DiskSet) (force : Bool) (i : Nat)
    (h : disks[i]? = some none) :
    (makeErrsOf disks).length = disks.length ∧
    (statErrsOf disks).length = disks.length ∧
    (deleteErrsOf force disks).length = disks.length ∧
    (makeErrsOf disks)[i]? = some (some errDiskNotFound) ∧
    (statErrsOf disks)[i]? = some (some errDiskNotFound) ∧
    (deleteErrsOf force disks)[i]? = some (some errDiskNotFound) := by
  refine ⟨by simp [makeErrsOf], by simp [statErrsOf], by simp [deleteErrsOf],
    ?_, ?_, ?_⟩
  · rw [makeErrsOf, List.getElem?_map, h]
    rfl
  · rw [statErrsOf, List.getElem?_map, h]
    rfl
  · rw [deleteErrsOf, List.getElem?_map, h]
    rfl

def absentOnly : DiskSet := [none]

/-- Witness for C8 at a one-slot set whose only slot is absent. -/
theorem fanout_absent_slot_witness :
    (makeErrsOf absentOnly).length = absentOnly.length ∧
    (statErrsOf absentOnly).length = absentOnly.length ∧
    (deleteErrsOf false absentOnly).length = absentOnly.length ∧
    (makeErrsOf absentOnly)[0]? = some (some errDiskNotFound) ∧
    (statErrsOf absentOnly)[0]? = some (some errDiskNotFound) ∧
    (deleteErrsOf false absentOnly)[0]? = some (some errDiskNotFound) :=
  fanout_absent_slot absentOnly false 0 rfl

/-- C9: a MakeBucket call whose bucket name fails validation returns the
invalid-name domain error with no backend action invoked, for every disk
set and quorum — the error is produced before the fan-out and never enters
quorum reduction. -/
theorem makeBucket_invalid_name (wq : Nat) (bucket : String) (disks : DiskSet) :
    makeBucketWithLocationW wq false bucket disks =
      { result := some (.bucketNameInvalid bucket), invoked := [] } ∧
    MakeBucketWithLocation false bucket disks =
      { result := some (.bucketNameInvalid bucket), invoked := [] } :=
  ⟨rfl, rfl⟩

/-- C5: whenever at least one slot's StatVol succeeded, getBucketInfo
returns the bucket info recorded for the first successful slot in index
order with a nil error, for every read-quorum threshold and regardless of
what the other slots report. -/
theorem getBucketInfo_first_success (rq : Nat) (disks : DiskSet) (i : Nat)
    (d : Disk) (v : VolInfo) (hd : disks[i]? = some (some d))
    (hv : d.statVol = .ok v)
    (hfirst : ∀ j, j < i → (statErrsOf disks)[j]? ≠ some none) :
    getBucketInfoW rq disks = (BucketInfo.ofVolInfo v, none) := by
  have hstat : (statErrsOf disks)[i]? = some none := by
    rw [statErrsOf, List.getElem?_map, hd]
    simp [hv]
  have hidx : firstIdxP (fun e => e.isNone) (statErrsOf disks) = some i := by
    refine firstIdxP_eq_some _ _ i none hstat rfl ?_
    intro j hj y hy
    cases y with
    | none => exact absurd hy (hfirst j hj)
    | some z => rfl
  have hinfo : (bucketsInfoOf disks)[i]? = some (BucketInfo.ofVolInfo v) := by
    rw [bucketsInfoOf, List.getElem?_map, hd]
    simp [hv]
  simp only [getBucketInfoW, hidx]
  rw [getD_of_getElem? default hinfo]

def statDisks : DiskSet :=
  [some (statErrDisk errFaultyDisk), some (statOkDisk ⟨"X", 7⟩),
   some (statErrDisk errFaultyDisk)]

/-- Witness for C5: scenario N = 3, results [unavailable, ok X,
unavailable]; the stat returns X with no error. -/
theorem getBucketInfo_first_success_witness :
    getBucketInfoW 1 statDisks = (BucketInfo.ofVolInfo ⟨"X", 7⟩, none) :=
  getBucketInfo_first_success 1 statDisks 1 (statOkDisk ⟨"X", 7⟩) ⟨"X", 7⟩ rfl rfl
    (fun j hj => by
      have h0 : j = 0 := by omega
      subst h0
      decide)

/-- C10: in quorum mode, when the quarantine branch runs (the primary
reduction yielded nil or volume-not-found) and some live slot reported
volume-not-empty, the overall result is success — the RenameFile results
are discarded, so this holds for every value of every slot's RenameFile
outcome, including failing relocates. -/
theorem deleteBucket_relocate_discarded (wq : Nat) (bucket : String) (nr : Bool)
    (disks : DiskSet)
    (hred : reduceWriteQuorumErrs (deleteErrsOf false disks) bucketOpIgnoredErrs wq =
        none ∨
      reduceWriteQuorumErrs (deleteErrsOf false disks) bucketOpIgnoredErrs wq =
        some errVolumeNotFound)
    (i : Nat) (d : Disk) (hd : disks[i]? = some (some d))
    (he : (deleteErrsOf false disks)[i]? = some (some errVolumeNotEmpty)) :
    (deleteBucketW wq bucket ⟨false, nr⟩ disks).result = none := by
  have hmem : (0 + i, d.renameFile) ∈
      quarantineCalls disks (deleteErrsOf false disks) :=
    quarantineCallsAux_mem 0 i disks _ d hd he
  have hne : (quarantineCalls disks (deleteErrsOf false disks)).isEmpty = false := by
    rcases hq : quarantineCalls disks (deleteErrsOf false disks) with _ | ⟨a, t⟩
    · rw [hq] at hmem
      simp at hmem
    · rfl
  simp only [deleteBucketW_quorum]
  rw [if_pos hred]
  simp [hne, toObjectErr]

def relocDisks : DiskSet := [some neDisk, some nfDisk, some nfDisk, some nfDisk]

/-- Witness for C10: slot 0's relocate fails (RenameFile reports a faulty
disk) yet the delete still returns success. -/
theorem deleteBucket_relocate_discarded_witness :
    (deleteBucketW 3 "b" ⟨false, false⟩ relocDisks).result = none :=
  deleteBucket_relocate_discarded 3 "b" false relocDisks (by decide) 0 neDisk rfl
    (by decide)

def quarCexDisks : DiskSet := [some neDisk, some neDisk, some nfDisk, some nfDisk]

/-- C1 counterexample: four live slots, exactly two reporting
volume-not-empty and the rest volume-not-found (so the claim's premise
holds with k = 2, write quorum 3), yet the delete returns the
insufficient-write-quorum error and issues zero relocates, not success
with two relocates. -/
theorem deleteBucket_quarantine_count_cex :
    (deleteErrsOf false quarCexDisks).count (some errVolumeNotEmpty) = 2 ∧
    (∀ x ∈ quarCexDisks, x.isSome) ∧
    (∀ e ∈ deleteErrsOf false quarCexDisks,
      e = none ∨ e = some errVolumeNotFound ∨ e = some errVolumeNotEmpty) ∧
    getWriteQuorum quarCexDisks.length = 3 ∧
    (DeleteBucket "b" ⟨false, false⟩ quarCexDisks).result =
      some ObjErr.insufficientWriteQuorum ∧
    (DeleteBucket "b" ⟨false, false⟩ quarCexDisks).relocated = [] := by
  decide

/-- C1 (amended): for a result vector whose slots are all live and report
only success, volume-not-found or volume-not-empty, with at least one
volume-not-empty slot, and whose write-quorum reduction yields success or
the volume-not-found error, the delete returns success and issues exactly
one quarantine relocate per volume-not-empty slot. -/
theorem deleteBucket_quarantine_count (wq : Nat) (bucket : String) (nr : Bool)
    (disks : DiskSet)
    (hlive : ∀ x ∈ disks, x.isSome)
    (_hkinds : ∀ e ∈ deleteErrsOf false disks,
      e = none ∨ e = some errVolumeNotFound ∨ e = some errVolumeNotEmpty)
    (hred : reduceWriteQuorumErrs (deleteErrsOf false disks) bucketOpIgnoredErrs wq =
        none ∨
      reduceWriteQuorumErrs (deleteErrsOf false disks) bucketOpIgnoredErrs wq =
        some errVolumeNotFound)
    (hk : 0 < (deleteErrsOf false disks).count (some errVolumeNotEmpty)) :
    (deleteBucketW wq bucket ⟨false, nr⟩ disks).result = none ∧
    (deleteBucketW wq bucket ⟨false, nr⟩ disks).relocated.length =
      (deleteErrsOf false disks).count (some errVolumeNotEmpty) := by
  have hlen : disks.length = (deleteErrsOf false disks).length := by
    simp [deleteErrsOf]
  have hqlen : (quarantineCalls disks (deleteErrsOf false disks)).length =
      (deleteErrsOf false disks).count (some errVolumeNotEmpty) :=
    quarantineCallsAux_length 0 disks _ hlen hlive
  have hne : (quarantineCalls disks (deleteErrsOf false disks)).isEmpty = false := by
    rcases hq : quarantineCalls disks (deleteErrsOf false disks) with _ | ⟨a, t⟩
    · rw [hq] at hqlen
      simp only [List.length_nil] at hqlen
      omega
    · rfl
  constructor
  · simp only [deleteBucketW_quorum]
    rw [if_pos hred]
    simp [hne, toObjectErr]
  · simp only [deleteBucketW_quorum]
    rw [if_pos hred]
    simpa using hqlen

def quarWitDisks : DiskSet := [some neDisk, some nfDisk, some nfDisk, some nfDisk]

/-- Witness for amended C1: the spec scenario N = 4, write quorum 3,
results [NotEmpty, NotFound, NotFound, NotFound]: success and exactly one
relocate. -/
theorem deleteBucket_quarantine_count_witness :
    (deleteBucketW 3 "b" ⟨false, false⟩ quarWitDisks).result = none ∧
    (deleteBucketW 3 "b" ⟨false, false⟩ quarWitDisks).relocated.length =
      (deleteErrsOf false quarWitDisks).count (some errVolumeNotEmpty) :=
  deleteBucket_quarantine_count 3 "b" false quarWitDisks (by decide) (by decide)
    (by decide) (by decide)

def gateCexDisks : DiskSet :=
  [some neDisk, some (errDelDisk (.other 0)), some (errDelDisk (.other 1)),
   some okDelDisk]

/-- C2 counterexample: slot 0 is live and reports volume-not-empty, but
the primary reduction yields the write-quorum-loss sentinel; the
quarantine inspection does not run, so no relocate is issued for that
slot. -/
theorem deleteBucket_quarantine_gate_cex :
    (deleteErrsOf false gateCexDisks)[0]? = some (some errVolumeNotEmpty) ∧
    gateCexDisks[0]?.map Option.isSome = some true ∧
    reduceWriteQuorumErrs (deleteErrsOf false gateCexDisks) bucketOpIgnoredErrs
      (getWriteQuorum gateCexDisks.length) = some errErasureWriteQuorum ∧
    (DeleteBucket "b" ⟨false, false⟩ gateCexDisks).relocated = [] ∧
    (DeleteBucket "b" ⟨false, false⟩ gateCexDisks).result =
      some ObjErr.insufficientWriteQuorum := by
  decide

/-- C2 (amended): the quarantine inspection of the raw per-slot errors
runs if and only if the primary write-quorum reduction returned nil or the
volume-not-found error (in particular it does not run on a
write-quorum-loss outcome); when it runs, every live slot whose raw error
is volume-not-empty gets its relocate issued. -/
theorem deleteBucket_quarantine_gate (wq : Nat) (bucket : String) (nr : Bool)
    (disks : DiskSet) :
    ((reduceWriteQuorumErrs (deleteErrsOf false disks) bucketOpIgnoredErrs wq =
          none ∨
        reduceWriteQuorumErrs (deleteErrsOf false disks) bucketOpIgnoredErrs wq =
          some errVolumeNotFound) →
      (deleteBucketW wq bucket ⟨false, nr⟩ disks).relocated =
        quarantineCalls disks (deleteErrsOf false disks)) ∧
    (¬(reduceWriteQuorumErrs (deleteErrsOf false disks) bucketOpIgnoredErrs wq =
          none ∨
        reduceWriteQuorumErrs (deleteErrsOf false disks) bucketOpIgnoredErrs wq =
          some errVolumeNotFound) →
      (deleteBucketW wq bucket ⟨false, nr⟩ disks).relocated = []) ∧
    (∀ (i : Nat) (d : Disk), disks[i]? = some (some d) →
      (deleteErrsOf false disks)[i]? = some (some errVolumeNotEmpty) →
      (reduceWriteQuorumErrs (deleteErrsOf false disks) bucketOpIgnoredErrs wq =
          none ∨
        reduceWriteQuorumErrs (deleteErrsOf false disks) bucketOpIgnoredErrs wq =
          some errVolumeNotFound) →
      (i, d.renameFile) ∈ (deleteBucketW wq bucket ⟨false, nr⟩ disks).relocated) := by
  have hbr : ∀ h :
      reduceWriteQuorumErrs (deleteErrsOf false disks) bucketOpIgnoredErrs wq =
          none ∨
        reduceWriteQuorumErrs (deleteErrsOf false disks) bucketOpIgnoredErrs wq =
          some errVolumeNotFound,
      (deleteBucketW wq bucket ⟨false, nr⟩ disks).relocated =
        quarantineCalls disks (deleteErrsOf false disks) := by
    intro h
    simp only [deleteBucketW_quorum]
    rw [if_pos h]
  refine ⟨hbr, ?_, ?_⟩
  · intro h
    simp only [deleteBucketW_quorum]
    rw [if_neg h]
  · intro i d hd he h
    rw [hbr h]
    have := quarantineCallsAux_mem 0 i disks (deleteErrsOf false disks) d hd he
    simpa using this

/-- Witness for amended C2: with the reduction yielding volume-not-found,
the live volume-not-empty slot 0 gets its relocate issued. -/
theorem deleteBucket_quarantine_gate_witness :
    (0, neDisk.renameFile) ∈
      (deleteBucketW 3 "b" ⟨false, false⟩ quarWitDisks).relocated :=
  (deleteBucket_quarantine_gate 3 "b" false quarWitDisks).2.2 0 neDisk rfl
    (by decide) (by decide)

def vnfCexDisks : DiskSet := [some nfDisk, some nfDisk, some nfDisk, some okDelDisk]

/-- C6 counterexample: volume-not-found is in the bucket-metadata set but
not in the bucket-operation set, and DeleteBucket's quorum reduction
demonstrably uses the latter: on three volume-not-found slots (write
quorum 3) it reduces to volume-not-found — surfaced as BucketNotFound —
whereas reduction with the bucket-metadata set would ignore those slots
and yield the write-quorum-loss sentinel instead. -/
theorem ignoredErrs_used_cex :
    errVolumeNotFound ∈ bucketMetadataOpIgnoredErrs ∧
    errVolumeNotFound ∉ bucketOpIgnoredErrs ∧
    reduceWriteQuorumErrs (deleteErrsOf false vnfCexDisks) bucketOpIgnoredErrs
      (getWriteQuorum vnfCexDisks.length) = some errVolumeNotFound ∧
    reduceWriteQuorumErrs (deleteErrsOf false vnfCexDisks)
      bucketMetadataOpIgnoredErrs (getWriteQuorum vnfCexDisks.length) =
      some errErasureWriteQuorum ∧
    (DeleteBucket "b" ⟨false, false⟩ vnfCexDisks).result =
      some (ObjErr.bucketNotFound "b") := by
  refine ⟨by decide, by decide, by decide, by decide, rfl⟩

/-- C6 (amended): bucketMetadataOpIgnoredErrs extends the bucket-operation
set with volume-not-found, but the write-quorum reductions in
MakeBucketWithLocation and DeleteBucket use bucketOpIgnoredErrs, in which
volume-not-found is not ignored: on any disk set whose live slots all
report volume-not-found, DeleteBucket surfaces BucketNotFound (and issues
no rollback), while reduction with the bucket-metadata set would yield the
write-quorum-loss sentinel. -/
theorem ignoredErrs_metadata_vs_bucket (wq : Nat) (bucket : String) (nr : Bool)
    (disks : DiskSet)
    (hall : ∀ x ∈ disks, Option.map (fun d => d.deleteVol false) x =
      some (some errVolumeNotFound))
    (hq : 0 < wq) (hle : wq ≤ disks.length) :
    bucketMetadataOpIgnoredErrs = bucketOpIgnoredErrs ++ [errVolumeNotFound] ∧
    errVolumeNotFound ∉ bucketOpIgnoredErrs ∧
    (deleteBucketW wq bucket ⟨false, nr⟩ disks).result =
      some (ObjErr.bucketNotFound bucket) ∧
    (deleteBucketW wq bucket ⟨false, nr⟩ disks).undoInvoked = 0 ∧
    reduceWriteQuorumErrs (deleteErrsOf false disks) bucketMetadataOpIgnoredErrs
      wq = some errErasureWriteQuorum := by
  have hderr : ∀ e ∈ deleteErrsOf false disks, e = some errVolumeNotFound := by
    intro e he
    rw [deleteErrsOf, List.mem_map] at he
    obtain ⟨x, hx, hfx⟩ := he
    have hm := hall x hx
    cases x with
    | none => simp at hm
    | some d =>
      rw [← hfx]
      simpa using hm
  have hlen : wq ≤ (deleteErrsOf false disks).length := by
    simpa [deleteErrsOf] using hle
  obtain ⟨hred1, hred2⟩ := reduceWrite_all_vnf _ wq hq hlen hderr
  have hrel : quarantineCalls disks (deleteErrsOf false disks) = [] :=
    quarantineCallsAux_nil 0 _ _ (fun e he => by
      rw [hderr e he]
      decide)
  refine ⟨rfl, by decide, ?_, ?_, hred2⟩
  · simp only [deleteBucketW_quorum]
    rw [if_pos (Or.inr hred1), hrel, hred1]
    rfl
  · rw [deleteBucketW_quorum_undoInvoked, hred1,
      if_neg (fun h => absurd h.1 (by decide))]

def vnfWitDisks : DiskSet := [some nfDisk, some nfDisk]

/-- Witness for amended C6: two live volume-not-found slots, write quorum
2; the claim-relevant conclusions at this concrete input. -/
theorem ignoredErrs_metadata_vs_bucket_witness :
    (deleteBucketW 2 "b" ⟨false, false⟩ vnfWitDisks).result =
      some (ObjErr.bucketNotFound "b") ∧
    reduceWriteQuorumErrs (deleteErrsOf false vnfWitDisks)
      bucketMetadataOpIgnoredErrs 2 = some errErasureWriteQuorum :=
  ⟨(ignoredErrs_metadata_vs_bucket 2 "b" false vnfWitDisks (by decide) (by decide)
      (by decide)).2.2.1,
   (ignoredErrs_metadata_vs_bucket 2 "b" false vnfWitDisks (by decide) (by decide)
      (by decide)).2.2.2.2⟩

end ErasureBucket
